import Mathlib

/-!
Verification of the decision-and-authority core of the DigiByte Adamantine
Wallet (EQC engine, policy pack registry, WSQK session nonces, signing gate,
context fingerprinting), shallowly embedded from the Python sources.
-/

namespace Adamantine

/-! ## Verdict data model

Modelled from the spec: the file core/eqc/verdicts.py is not part of the
provided sources (only its callers are). The spec describes the model as a
tagged record over ALLOW, STEP_UP, DENY with an ordered list of reasons, an
optional step-up payload present exactly when the kind is STEP_UP, and the
listed reason codes. -/

/-- The three verdict kinds of the EQC engine. -/
inductive VerdictType
  | ALLOW
  | STEP_UP
  | DENY
deriving DecidableEq, Repr

/-- Modelled from the spec: the reason codes the spec lists as the minimum
set exported by core/eqc/verdicts.py. -/
inductive ReasonCode
  | BROWSER_CONTEXT_BLOCKED
  | EXTENSION_CONTEXT_BLOCKED
  | MINT_REDEEM_REQUIRES_STEP_UP
  | LARGE_AMOUNT
  | POLICY_RULE_MATCH
  | ENGINE_INVARIANT
deriving DecidableEq, Repr

/-- A structured reason: code, message and a detail mapping. Detail values
are modelled by their rendered text, which no claim inspects. -/
structure Reason where
  code : ReasonCode
  message : String
  details : List (String × String)
deriving DecidableEq, Repr

/-- The step-up payload: ordered requirements plus an optional message. -/
structure StepUp where
  requirements : List String
  message : Option String
deriving DecidableEq, Repr

/-- A verdict: kind, ordered reasons, optional step-up payload. -/
structure Verdict where
  type : VerdictType
  reasons : List Reason
  step_up : Option StepUp
deriving DecidableEq, Repr

/-- Modelled from the spec: construction of a Verdict as performed by the
missing core/eqc/verdicts.py. Per the spec a verdict carries a step-up
payload exactly when its kind is STEP_UP, and a STEP_UP verdict built
without a payload receives the default confirm_user_intent requirement. -/
def Verdict.construct (t : VerdictType) (rs : List Reason) (su : Option StepUp) : Verdict :=
  if t = VerdictType.STEP_UP then
    { type := t, reasons := rs, step_up := some (su.getD ⟨["confirm_user_intent"], none⟩) }
  else
    { type := t, reasons := rs, step_up := none }

/-- Modelled from the spec: the ALLOW factory used by policy packs. The spec
leaves its reason payload unspecified; no claim inspects it. -/
def Verdict.allowV : Verdict :=
  Verdict.construct VerdictType.ALLOW [] none

/-- Embeds engine._safe_reason with no code override: ReasonCode exposes
ENGINE_INVARIANT, so that code is chosen, with empty details by default. -/
def safeReason (message : String) (details : List (String × String)) : Reason :=
  { code := ReasonCode.ENGINE_INVARIANT, message := message, details := details }

/-- Embeds engine._make_verdict: a verdict with a single reason carrying the
given override code. -/
def makeVerdict (t : VerdictType) (code : ReasonCode) (message : String)
    (details : List (String × String)) : Verdict :=
  Verdict.construct t [{ code := code, message := message, details := details }] none

/-- Embeds engine._attach_step_up: forcibly sets the step-up payload of a
verdict to the given requirements (the source mutates the frozen dataclass). -/
def attachStepUp (v : Verdict) (reqs : List String) : Verdict :=
  { v with step_up := some ⟨reqs, none⟩ }

/-! ## Verdict merging (engine._merge_verdicts) -/

/-- Embeds engine._first_step_up: the first non-null step-up payload in the
list (the source additionally skips callables, which a payload never is). -/
def firstStepUp : List Verdict → Option StepUp
  | [] => none
  | v :: rest =>
    match v.step_up with
    | some su => some su
    | none => firstStepUp rest

/-- Embeds engine._merge_verdicts: DENY beats STEP_UP beats ALLOW, reasons of
the winning kind are concatenated, a default reason is inserted when the
concatenation is empty, and a STEP_UP winner carries the first non-null
step-up payload among the winning verdicts. -/
def mergeVerdicts (verdicts : List Verdict) : Verdict :=
  match verdicts with
  | [] => Verdict.construct VerdictType.DENY
      [safeReason "No verdicts produced by EQC." []] none
  | _ =>
    if verdicts.any (fun v => v.type = VerdictType.DENY) then
      let chosen := verdicts.filter (fun v => v.type = VerdictType.DENY)
      let merged := (chosen.map fun v => v.reasons).flatten
      let merged := if merged.isEmpty then
          [safeReason "Denied by EQC policy evaluation." []] else merged
      Verdict.construct VerdictType.DENY merged none
    else if verdicts.any (fun v => v.type = VerdictType.STEP_UP) then
      let chosen := verdicts.filter (fun v => v.type = VerdictType.STEP_UP)
      let merged := (chosen.map fun v => v.reasons).flatten
      let merged := if merged.isEmpty then
          [safeReason "Step-up required by EQC policy evaluation." []] else merged
      Verdict.construct VerdictType.STEP_UP merged (firstStepUp chosen)
    else
      let chosen := verdicts.filter (fun v => v.type = VerdictType.ALLOW)
      if ¬ chosen.isEmpty then
        let merged := (chosen.map fun v => v.reasons).flatten
        let merged := if merged.isEmpty then
            [safeReason "Allowed by EQC policy evaluation." []] else merged
        Verdict.construct VerdictType.ALLOW merged none
      else
        verdicts.headD (Verdict.construct VerdictType.DENY [] none)

/-! ## WSQK session (core/wsqk/session.py) -/

/-- Embeds the WSQKSession dataclass: wallet id, ttl, session id, the time
window and the set of used nonce keys. The Python set of used keys is
modelled as the list of inserted keys, newest first, compared by
membership. -/
structure WSQKSession where
  wallet_id : Option String
  ttl_seconds : Int
  session_id : String
  created_at : Int
  expires_at : Int
  used_nonces : List String
deriving DecidableEq, Repr

/-- Embeds WSQKSession post-init: the expiry is created_at plus ttl. -/
def WSQKSession.make (wallet_id : Option String) (ttl_seconds : Int)
    (session_id : String) (created_at : Int) : WSQKSession :=
  { wallet_id := wallet_id, ttl_seconds := ttl_seconds, session_id := session_id,
    created_at := created_at, expires_at := created_at + ttl_seconds,
    used_nonces := [] }

/-- Embeds WSQKSession.is_active: created_at and expires_at bound now
inclusively. -/
def WSQKSession.isActive (s : WSQKSession) (now : Int) : Bool :=
  s.created_at ≤ now ∧ now ≤ s.expires_at

/-- Embeds the key computation of WSQKSession.consume_nonce: the key is
scope followed by a colon followed by the nonce when the scope hash is
truthy (present and non-empty), and the bare nonce otherwise. -/
def nonceKey (scope_hash : Option String) (nonce : String) : String :=
  match scope_hash with
  | some h => if h = "" then nonce else h ++ ":" ++ nonce
  | none => nonce

/-- The error message of WSQKSession.assert_active. -/
def sessionNotActiveMsg : String :=
  "WSQK session is not active (expired or not yet valid)."

/-- The error message of the nonce replay rejection. -/
def nonceReplayMsg : String :=
  "WSQK nonce replay detected (nonce already used)."

/-- Embeds WSQKSession.consume_nonce: assert the session is active, reject a
key already used, otherwise record the key. -/
def consumeNonce (s : WSQKSession) (nonce : String) (scope_hash : Option String)
    (now : Int) : Except String WSQKSession :=
  if s.isActive now then
    let key := nonceKey scope_hash nonce
    if key ∈ s.used_nonces then
      Except.error nonceReplayMsg
    else
      Except.ok { s with used_nonces := key :: s.used_nonces }
  else
    Except.error sessionNotActiveMsg

/-- The tightening order on verdict kinds: ALLOW below STEP_UP below DENY. -/
def vtypeRank : VerdictType → Nat
  | VerdictType.ALLOW => 0
  | VerdictType.STEP_UP => 1
  | VerdictType.DENY => 2

/-- The default reason the merge inserts when the winning kind contributes
no reasons, per winning kind. -/
def defaultMergeReason : VerdictType → Reason
  | VerdictType.DENY => safeReason "Denied by EQC policy evaluation." []
  | VerdictType.STEP_UP => safeReason "Step-up required by EQC policy evaluation." []
  | VerdictType.ALLOW => safeReason "Allowed by EQC policy evaluation." []

/-! ## Context snapshot (core/eqc/context.py) and canonical JSON

The snapshot hash is the SHA-256 hex digest of json.dumps of the nested
dictionary with sort_keys=True and the default separators. Values inside
the free-form extra mapping are modelled as flat JSON leaves; floats are
modelled by their rendered repr text, which is all the serializer consumes
from them. -/

/-- A JSON leaf value as it appears in the serialized snapshot. -/
inductive JLeaf
  | jnull
  | jbool (b : Bool)
  | jint (n : Int)
  | jstr (s : String)
  | jfloat (reprText : String)
deriving DecidableEq, Repr

/-- A top-level value of the snapshot dictionary: a leaf or a flat object. -/
inductive JTop
  | leaf (v : JLeaf)
  | obj (fields : List (String × JLeaf))
deriving DecidableEq, Repr

/-- Lowercase hex digit of a value below sixteen. -/
def hexDigit (n : Nat) : String :=
  if n = 0 then "0" else if n = 1 then "1" else if n = 2 then "2"
  else if n = 3 then "3" else if n = 4 then "4" else if n = 5 then "5"
  else if n = 6 then "6" else if n = 7 then "7" else if n = 8 then "8"
  else if n = 9 then "9" else if n = 10 then "a" else if n = 11 then "b"
  else if n = 12 then "c" else if n = 13 then "d" else if n = 14 then "e"
  else "f"

/-- Four lowercase hex digits, as in the Python json unicode escape. -/
def hex4 (n : Nat) : String :=
  hexDigit ((n / 4096) % 16) ++ hexDigit ((n / 256) % 16) ++
    hexDigit ((n / 16) % 16) ++ hexDigit (n % 16)

/-- Escapes one character the way json.dumps with ensure_ascii does: the
two-character escapes for quote, backslash and the control shorthands,
unicode escapes for other control characters and for everything outside
printable ASCII, surrogate pairs above the basic plane. -/
def pyJsonEscapeChar (c : Char) : String :=
  if c.toNat = 34 then "\\\""
  else if c.toNat = 92 then "\\\\"
  else if c.toNat = 10 then "\\n"
  else if c.toNat = 13 then "\\r"
  else if c.toNat = 9 then "\\t"
  else if c.toNat = 8 then "\\b"
  else if c.toNat = 12 then "\\f"
  else if c.toNat < 32 then "\\u" ++ hex4 c.toNat
  else if c.toNat < 127 then String.singleton c
  else if c.toNat < 65536 then "\\u" ++ hex4 c.toNat
  else "\\u" ++ hex4 (55296 + (c.toNat - 65536) / 1024) ++
    "\\u" ++ hex4 (56320 + (c.toNat - 65536) % 1024)

/-- Escapes a whole string for json.dumps output. -/
def pyJsonEscape (s : String) : String :=
  String.join (s.data.map pyJsonEscapeChar)

/-- Renders a leaf the way json.dumps renders it: null, true or false,
the decimal integer, the quoted escaped string, or the float repr text. -/
def renderLeaf : JLeaf → String
  | JLeaf.jnull => "null"
  | JLeaf.jbool true => "true"
  | JLeaf.jbool false => "false"
  | JLeaf.jint n => toString n
  | JLeaf.jstr s => "\"" ++ pyJsonEscape s ++ "\""
  | JLeaf.jfloat r => r

/-- Code-point lexicographic comparison of character lists, the order
Python string comparison uses. -/
def charListLt : List Char → List Char → Bool
  | [], [] => false
  | [], _ :: _ => true
  | _ :: _, [] => false
  | c :: cs, d :: ds =>
    if c.toNat < d.toNat then true
    else if d.toNat < c.toNat then false
    else charListLt cs ds

/-- Code-point lexicographic order on strings. -/
def strLt (a b : String) : Bool :=
  charListLt a.data b.data

/-- Stable insertion into a key-sorted association list (strictly smaller
keys stay in front, matching the stability of Python sorting). -/
def insertByKey {α : Type} (p : String × α) : List (String × α) → List (String × α)
  | [] => [p]
  | q :: rest => if strLt p.1 q.1 then p :: q :: rest else q :: insertByKey p rest

/-- Sorts an association list by key, as sort_keys=True does. -/
def sortByKey {α : Type} (l : List (String × α)) : List (String × α) :=
  l.foldr insertByKey []

/-- One rendered object entry under the default key separator of
json.dumps: quoted key, colon, space, value. -/
def renderEntry (k v : String) : String :=
  "\"" ++ pyJsonEscape k ++ "\": " ++ v

/-- Renders a flat object the way json.dumps with sort_keys=True and the
default separators does: sorted keys, a comma and a space between items, a
colon and a space after each key. -/
def renderFlatObj (l : List (String × JLeaf)) : String :=
  "\x7b" ++ String.intercalate ", "
    ((sortByKey l).map fun kv => renderEntry kv.1 (renderLeaf kv.2)) ++ "\x7d"

/-- Renders a top-level value. -/
def renderTopVal : JTop → String
  | JTop.leaf v => renderLeaf v
  | JTop.obj l => renderFlatObj l

/-- Renders the top-level snapshot dictionary under json.dumps with
sort_keys=True and the default separators. -/
def renderDoc (l : List (String × JTop)) : String :=
  "\x7b" ++ String.intercalate ", "
    ((sortByKey l).map fun kv => renderEntry kv.1 (renderTopVal kv.2)) ++ "\x7d"

/-! ### UTF-8 and SHA-256 -/

/-- UTF-8 bytes of one character. -/
def utf8Char (c : Char) : List Nat :=
  let n := c.toNat
  if n < 128 then [n]
  else if n < 2048 then [192 + n / 64, 128 + n % 64]
  else if n < 65536 then [224 + n / 4096, 128 + (n / 64) % 64, 128 + n % 64]
  else [240 + n / 262144, 128 + (n / 4096) % 64, 128 + (n / 64) % 64, 128 + n % 64]

/-- UTF-8 bytes of a string, as the encode call in context_hash produces. -/
def utf8Encode (s : String) : List Nat :=
  (s.data.map utf8Char).flatten

/-- Right rotation of a 32-bit word. -/
def rotr32 (n x : Nat) : Nat :=
  ((x >>> n) ||| (x <<< (32 - n))) % 4294967296

/-- The sixty-four SHA-256 round constants, written in decimal. -/
def shaK : List Nat :=
  [1116352408, 1899447441, 3049323471, 3921009573, 961987163,
   1508970993, 2453635748, 2870763221, 3624381080, 310598401,
   607225278, 1426881987, 1925078388, 2162078206, 2614888103,
   3248222580, 3835390401, 4022224774, 264347078, 604807628,
   770255983, 1249150122, 1555081692, 1996064986, 2554220882,
   2821834349, 2952996808, 3210313671, 3336571891, 3584528711,
   113926993, 338241895, 666307205, 773529912, 1294757372,
   1396182291, 1695183700, 1986661051, 2177026350, 2456956037,
   2730485921, 2820302411, 3259730800, 3345764771, 3516065817,
   3600352804, 4094571909, 275423344, 430227734, 506948616,
   659060556, 883997877, 958139571, 1322822218, 1537002063,
   1747873779, 1955562222, 2024104815, 2227730452, 2361852424,
   2428436474, 2756734187, 3204031479, 3329325298]

/-- The eight SHA-256 initial hash words, written in decimal. -/
def shaH0 : List Nat :=
  [1779033703, 3144134277, 1013904242, 2773480762,
   1359893119, 2600822924, 528734635, 1541459225]

/-- Big-endian eight-byte encoding of a length in bits. -/
def be64 (n : Nat) : List Nat :=
  [(n >>> 56) % 256, (n >>> 48) % 256, (n >>> 40) % 256, (n >>> 32) % 256,
   (n >>> 24) % 256, (n >>> 16) % 256, (n >>> 8) % 256, n % 256]

/-- SHA-256 padding: the 0x80 byte, zeros to 56 modulo 64, then the bit
length big-endian. -/
def shaPad (msg : List Nat) : List Nat :=
  let L := msg.length
  msg ++ [128] ++ List.replicate ((119 - L % 64) % 64) 0 ++ be64 (8 * L)

/-- Extends a reversed schedule by the given number of words. -/
def extendScheduleRev : Nat → List Nat → List Nat
  | 0, rws => rws
  | k + 1, rws =>
    let s1 :=
      let x := rws.getD 1 0
      (rotr32 17 x) ^^^ (rotr32 19 x) ^^^ (x >>> 10)
    let s0 :=
      let x := rws.getD 14 0
      (rotr32 7 x) ^^^ (rotr32 18 x) ^^^ (x >>> 3)
    let w := (s1 + rws.getD 6 0 + s0 + rws.getD 15 0) % 4294967296
    extendScheduleRev k (w :: rws)

/-- One SHA-256 compression round over the eight-word state. -/
def shaRound (st : List Nat) (kw : Nat × Nat) : List Nat :=
  match st with
  | [a, b, c, d, e, f, g, h] =>
    let S1 := (rotr32 6 e) ^^^ (rotr32 11 e) ^^^ (rotr32 25 e)
    let ch := (e &&& f) ^^^ ((e ^^^ 4294967295) &&& g)
    let temp1 := (h + S1 + ch + kw.1 + kw.2) % 4294967296
    let S0 := (rotr32 2 a) ^^^ (rotr32 13 a) ^^^ (rotr32 22 a)
    let maj := (a &&& b) ^^^ (a &&& c) ^^^ (b &&& c)
    let temp2 := (S0 + maj) % 4294967296
    [(temp1 + temp2) % 4294967296, a, b, c, (d + temp1) % 4294967296, e, f, g]
  | other => other

/-- Compresses one sixteen-word block into the hash state. -/
def shaCompress (hs : List Nat) (ws16 : List Nat) : List Nat :=
  let ws := (extendScheduleRev 48 ws16.reverse).reverse
  let final := (shaK.zip ws).foldl shaRound hs
  (hs.zip final).map fun p => (p.1 + p.2) % 4294967296

/-- Folds the padded byte stream block by block into the hash state. -/
def shaChunks (hs : List Nat) : List Nat → List Nat
  | b0 :: b1 :: b2 :: b3 :: b4 :: b5 :: b6 :: b7 :: b8 :: b9 :: b10 :: b11 ::
    b12 :: b13 :: b14 :: b15 :: b16 :: b17 :: b18 :: b19 :: b20 :: b21 :: b22 ::
    b23 :: b24 :: b25 :: b26 :: b27 :: b28 :: b29 :: b30 :: b31 :: b32 :: b33 ::
    b34 :: b35 :: b36 :: b37 :: b38 :: b39 :: b40 :: b41 :: b42 :: b43 :: b44 ::
    b45 :: b46 :: b47 :: b48 :: b49 :: b50 :: b51 :: b52 :: b53 :: b54 :: b55 ::
    b56 :: b57 :: b58 :: b59 :: b60 :: b61 :: b62 :: b63 :: rest =>
    shaChunks (shaCompress hs
      [b0 * 16777216 + b1 * 65536 + b2 * 256 + b3,
       b4 * 16777216 + b5 * 65536 + b6 * 256 + b7,
       b8 * 16777216 + b9 * 65536 + b10 * 256 + b11,
       b12 * 16777216 + b13 * 65536 + b14 * 256 + b15,
       b16 * 16777216 + b17 * 65536 + b18 * 256 + b19,
       b20 * 16777216 + b21 * 65536 + b22 * 256 + b23,
       b24 * 16777216 + b25 * 65536 + b26 * 256 + b27,
       b28 * 16777216 + b29 * 65536 + b30 * 256 + b31,
       b32 * 16777216 + b33 * 65536 + b34 * 256 + b35,
       b36 * 16777216 + b37 * 65536 + b38 * 256 + b39,
       b40 * 16777216 + b41 * 65536 + b42 * 256 + b43,
       b44 * 16777216 + b45 * 65536 + b46 * 256 + b47,
       b48 * 16777216 + b49 * 65536 + b50 * 256 + b51,
       b52 * 16777216 + b53 * 65536 + b54 * 256 + b55,
       b56 * 16777216 + b57 * 65536 + b58 * 256 + b59,
       b60 * 16777216 + b61 * 65536 + b62 * 256 + b63]) rest
  | _ => hs

/-- Big-endian four-byte encoding of a hash word. -/
def be32 (n : Nat) : List Nat :=
  [(n >>> 24) % 256, (n >>> 16) % 256, (n >>> 8) % 256, n % 256]

/-- Lowercase hex of a byte list. -/
def hexOfBytes (bs : List Nat) : String :=
  String.join (bs.map fun b => hexDigit (b / 16 % 16) ++ hexDigit (b % 16))

/-- SHA-256 hex digest of a byte list. -/
def sha256Hex (msg : List Nat) : String :=
  hexOfBytes (((shaChunks shaH0 (shaPad msg)).map be32).flatten)

/-! ### The context dataclasses and context_hash -/

/-- Embeds the ActionContext dataclass. -/
structure ActionContext where
  action : String
  asset : String
  amount : Option Int
  recipient : Option String
deriving DecidableEq, Repr

/-- Embeds the DeviceContext dataclass. -/
structure DeviceContext where
  device_id : Option String
  device_type : String
  os : String
  trusted : Bool
  first_seen_ts : Option Int
  app_version : Option String
deriving DecidableEq, Repr

/-- Embeds the NetworkContext dataclass; the float entropy score is
modelled by its rendered repr text. -/
structure NetworkContext where
  network : String
  node_type : Option String
  node_trusted : Bool
  entropy_score : Option String
  fee_rate : Option Int
  peer_count : Option Int
deriving DecidableEq, Repr

/-- Embeds the UserContext dataclass. -/
structure UserContext where
  user_id : Option String
  biometric_available : Bool
  pin_set : Bool
deriving DecidableEq, Repr

/-- Embeds the EQCContext dataclass: the immutable snapshot handed to the
engine. -/
structure EQCContext where
  action : ActionContext
  device : DeviceContext
  network : NetworkContext
  user : UserContext
  timestamp : Int
  extra : List (String × JLeaf)
deriving DecidableEq, Repr

/-- An optional string as a JSON leaf. -/
def optStr : Option String → JLeaf
  | some s => JLeaf.jstr s
  | none => JLeaf.jnull

/-- An optional integer as a JSON leaf. -/
def optInt : Option Int → JLeaf
  | some n => JLeaf.jint n
  | none => JLeaf.jnull

/-- An optional float repr as a JSON leaf. -/
def optFloat : Option String → JLeaf
  | some r => JLeaf.jfloat r
  | none => JLeaf.jnull

/-- The field dictionary of an ActionContext, in declaration order. -/
def ActionContext.toDict (a : ActionContext) : List (String × JLeaf) :=
  [("action", JLeaf.jstr a.action), ("asset", JLeaf.jstr a.asset),
   ("amount", optInt a.amount), ("recipient", optStr a.recipient)]

/-- The field dictionary of a DeviceContext, in declaration order. -/
def DeviceContext.toDict (d : DeviceContext) : List (String × JLeaf) :=
  [("device_id", optStr d.device_id), ("device_type", JLeaf.jstr d.device_type),
   ("os", JLeaf.jstr d.os), ("trusted", JLeaf.jbool d.trusted),
   ("first_seen_ts", optInt d.first_seen_ts), ("app_version", optStr d.app_version)]

/-- The field dictionary of a NetworkContext, in declaration order. -/
def NetworkContext.toDict (n : NetworkContext) : List (String × JLeaf) :=
  [("network", JLeaf.jstr n.network), ("node_type", optStr n.node_type),
   ("node_trusted", JLeaf.jbool n.node_trusted),
   ("entropy_score", optFloat n.entropy_score),
   ("fee_rate", optInt n.fee_rate), ("peer_count", optInt n.peer_count)]

/-- The field dictionary of a UserContext, in declaration order. -/
def UserContext.toDict (u : UserContext) : List (String × JLeaf) :=
  [("user_id", optStr u.user_id),
   ("biometric_available", JLeaf.jbool u.biometric_available),
   ("pin_set", JLeaf.jbool u.pin_set)]

/-- Embeds EQCContext.to_dict: the top-level dictionary in insertion
order. -/
def EQCContext.toDict (ctx : EQCContext) : List (String × JTop) :=
  [("action", JTop.obj ctx.action.toDict), ("device", JTop.obj ctx.device.toDict),
   ("network", JTop.obj ctx.network.toDict), ("user", JTop.obj ctx.user.toDict),
   ("timestamp", JTop.leaf (JLeaf.jint ctx.timestamp)),
   ("extra", JTop.obj ctx.extra)]

/-- Embeds EQCContext.context_hash: the SHA-256 hex digest of json.dumps
of the dictionary with sort_keys=True and the default separators. -/
def EQCContext.contextHash (ctx : EQCContext) : String :=
  sha256Hex (utf8Encode (renderDoc ctx.toDict))

/-- One rendered object entry with insignificant whitespace omitted. -/
def renderEntryCompact (k v : String) : String :=
  "\"" ++ pyJsonEscape k ++ "\":" ++ v

/-- Renders a flat object with sorted keys and no insignificant
whitespace. -/
def renderFlatObjCompact (l : List (String × JLeaf)) : String :=
  "\x7b" ++ String.intercalate ","
    ((sortByKey l).map fun kv => renderEntryCompact kv.1 (renderLeaf kv.2)) ++ "\x7d"

/-- Renders a top-level value with no insignificant whitespace. -/
def renderTopValCompact : JTop → String
  | JTop.leaf v => renderLeaf v
  | JTop.obj l => renderFlatObjCompact l

/-- Renders the top-level dictionary with sorted keys and no insignificant
whitespace. -/
def renderDocCompact (l : List (String × JTop)) : String :=
  "\x7b" ++ String.intercalate ","
    ((sortByKey l).map fun kv => renderEntryCompact kv.1 (renderTopValCompact kv.2)) ++ "\x7d"

/-- Follows the claim wording, for the refinement comparison: the
fingerprint as the hex SHA-256 of the canonical JSON serialization with
object keys sorted lexicographically and insignificant whitespace
omitted. -/
def claimCanonicalFingerprint (ctx : EQCContext) : String :=
  sha256Hex (utf8Encode (renderDocCompact ctx.toDict))

/-- The concrete snapshot used to separate context_hash from the
whitespace-free serialization of the claim wording. -/
def ctxWhitespace : EQCContext :=
  { action := ⟨"send", "DGB", some 1, none⟩,
    device := ⟨none, "mobile", "ios", false, none, none⟩,
    network := ⟨"mainnet", none, false, none, none, none⟩,
    user := ⟨none, false, false⟩,
    timestamp := 0, extra := [] }

/-- Renders the snapshot dictionary directly, with the six top-level keys
and every fixed sub-object written explicitly in sorted key order, joined
by the default json.dumps separators (a comma and a space between items, a
colon and a space after each key). -/
def canonicalSortedRender (ctx : EQCContext) : String :=
  "\x7b" ++ String.intercalate ", "
    [renderEntry "action" (String.intercalate ", "
        ([("action", JLeaf.jstr ctx.action.action), ("amount", optInt ctx.action.amount),
          ("asset", JLeaf.jstr ctx.action.asset),
          ("recipient", optStr ctx.action.recipient)].map
            fun kv => renderEntry kv.1 (renderLeaf kv.2)) |> fun s => "\x7b" ++ s ++ "\x7d"),
     renderEntry "device" (String.intercalate ", "
        ([("app_version", optStr ctx.device.app_version),
          ("device_id", optStr ctx.device.device_id),
          ("device_type", JLeaf.jstr ctx.device.device_type),
          ("first_seen_ts", optInt ctx.device.first_seen_ts),
          ("os", JLeaf.jstr ctx.device.os),
          ("trusted", JLeaf.jbool ctx.device.trusted)].map
            fun kv => renderEntry kv.1 (renderLeaf kv.2)) |> fun s => "\x7b" ++ s ++ "\x7d"),
     renderEntry "extra" (String.intercalate ", "
        ((sortByKey ctx.extra).map
            fun kv => renderEntry kv.1 (renderLeaf kv.2)) |> fun s => "\x7b" ++ s ++ "\x7d"),
     renderEntry "network" (String.intercalate ", "
        ([("entropy_score", optFloat ctx.network.entropy_score),
          ("fee_rate", optInt ctx.network.fee_rate),
          ("network", JLeaf.jstr ctx.network.network),
          ("node_trusted", JLeaf.jbool ctx.network.node_trusted),
          ("node_type", optStr ctx.network.node_type),
          ("peer_count", optInt ctx.network.peer_count)].map
            fun kv => renderEntry kv.1 (renderLeaf kv.2)) |> fun s => "\x7b" ++ s ++ "\x7d"),
     renderEntry "timestamp" (renderLeaf (JLeaf.jint ctx.timestamp)),
     renderEntry "user" (String.intercalate ", "
        ([("biometric_available", JLeaf.jbool ctx.user.biometric_available),
          ("pin_set", JLeaf.jbool ctx.user.pin_set),
          ("user_id", optStr ctx.user.user_id)].map
            fun kv => renderEntry kv.1 (renderLeaf kv.2)) |> fun s => "\x7b" ++ s ++ "\x7d")]
    ++ "\x7d"

/-! ## Policy pack registry (core/eqc/policies/registry.py) -/

/-- Whitespace in the sense of the Python strip call. -/
def isPySpace (c : Char) : Bool :=
  c.toNat = 32 || c.toNat = 9 || c.toNat = 10 || c.toNat = 13 ||
    c.toNat = 11 || c.toNat = 12

/-- Embeds the Python str.strip call: leading and trailing whitespace
removed. -/
def pyStrip (s : String) : String :=
  String.mk (((s.data.dropWhile isPySpace).reverse.dropWhile isPySpace).reverse)

/-- ASCII lowercase folding of one character. -/
def pyLowerChar (c : Char) : Char :=
  if 65 ≤ c.toNat ∧ c.toNat ≤ 90 then Char.ofNat (c.toNat + 32) else c

/-- Embeds the Python str.lower call; ASCII case folding, which covers
every literal the engine and packs compare against. -/
def pyLower (s : String) : String :=
  String.mk (s.data.map pyLowerChar)

/-- The calling convention of a resolved policy pack, as the registry sees
it: an object whose evaluate method accepts the keyword signal arguments,
an object whose evaluate method accepts only the context (so that the
keyword call of the registry raises TypeError), or a bare callable taking
the keyword arguments. A pack may return null for no opinion. -/
inductive PackImpl (Ctx DS TS : Type)
  | evalWithSignals (f : Ctx → DS → TS → Option Verdict)
  | evalContextOnly (f : Ctx → Verdict)
  | callableWithSignals (f : Ctx → DS → TS → Option Verdict)

/-- A module attribute a pack reference resolves to: a class, instantiated
with a zero-argument constructor, or an already built object or callable. -/
inductive ModuleAttr (Ctx DS TS : Type)
  | cls (instantiate : Unit → PackImpl Ctx DS TS)
  | obj (pack : PackImpl Ctx DS TS)

/-- Embeds _resolve_pack_ref over an import universe mapping stripped
references to module attributes: an empty reference is rejected, an
unknown reference raises, and a class is instantiated with no arguments.
The module-and-attribute string surgery of the source is folded into the
universe mapping. -/
def resolvePackRef {Ctx DS TS : Type}
    (loader : String → Option (ModuleAttr Ctx DS TS)) (ref : String) :
    Except String (PackImpl Ctx DS TS) :=
  if pyStrip ref = "" then Except.error "Empty policy pack reference"
  else
    match loader (pyStrip ref) with
    | none => Except.error ("Policy pack attribute not found: " ++ pyStrip ref)
    | some (ModuleAttr.cls instantiate) => Except.ok (instantiate ())
    | some (ModuleAttr.obj pack) => Except.ok pack

/-- The error the keyword call raises against a context-only evaluate
signature. -/
def typeErrorMsg : String :=
  "TypeError: evaluate() got an unexpected keyword argument"

/-- Embeds the pack call in PolicyPackRegistry.evaluate: the evaluate
method or the callable is invoked with the context plus the keyword signal
arguments; a context-only evaluate signature makes that call raise. -/
def callPack {Ctx DS TS : Type} :
    PackImpl Ctx DS TS → Ctx → DS → TS → Except String (Option Verdict)
  | PackImpl.evalWithSignals f, ctx, ds, ts => Except.ok (f ctx ds ts)
  | PackImpl.evalContextOnly _, _, _, _ => Except.error typeErrorMsg
  | PackImpl.callableWithSignals f, ctx, ds, ts => Except.ok (f ctx ds ts)

/-- Embeds PolicyPackRegistry._ensure_loaded: blank references are ignored,
known references are kept, unknown references are resolved and registered
under the same reference. -/
def ensureLoaded {Ctx DS TS : Type}
    (loader : String → Option (ModuleAttr Ctx DS TS))
    (reg : List (String × PackImpl Ctx DS TS)) (ref : String) :
    Except String (List (String × PackImpl Ctx DS TS)) :=
  if ref = "" then Except.ok reg
  else if (reg.lookup ref).isSome then Except.ok reg
  else
    match resolvePackRef loader ref with
    | Except.error e => Except.error e
    | Except.ok pack => Except.ok ((ref, pack) :: reg)

/-- Embeds PolicyPackRegistry.evaluate: walk the enabled references in the
order given, strip each, skip blanks, lazily load, call the pack with the
keyword signal arguments, skip null outputs, and collect the verdicts in
encounter order. Errors raised by resolution or by the call propagate. -/
def registryEvaluate {Ctx DS TS : Type}
    (loader : String → Option (ModuleAttr Ctx DS TS)) :
    List (String × PackImpl Ctx DS TS) → List String → Ctx → DS → TS →
      Except String (List Verdict)
  | _, [], _, _, _ => Except.ok []
  | reg, ref :: rest, ctx, ds, ts =>
    let r := pyStrip ref
    if r = "" then registryEvaluate loader reg rest ctx ds ts
    else
      match ensureLoaded loader reg r with
      | Except.error e => Except.error e
      | Except.ok reg2 =>
        match reg2.lookup r with
        | none => registryEvaluate loader reg2 rest ctx ds ts
        | some pack =>
          match callPack pack ctx ds ts with
          | Except.error e => Except.error e
          | Except.ok out =>
            match registryEvaluate loader reg2 rest ctx ds ts with
            | Except.error e => Except.error e
            | Except.ok restOut =>
              Except.ok
                (match out with
                 | none => restOut
                 | some v => v :: restOut)

/-! ## The high value step-up pack
(core/eqc/policies/packs/high_value_step_up.py) -/

/-- The pack reference the tests enable. -/
def highValueStepUpRef : String :=
  "core.eqc.policies.packs.high_value_step_up:HighValueStepUpPack"

/-- Embeds HighValueStepUpPack.evaluate: ALLOW unless the action is a send
carrying an amount at or above the threshold, in which case STEP_UP with
the LARGE_AMOUNT reason and a confirm_user_intent requirement. The Python
signature of this method accepts only the context. -/
def highValueEvaluate (threshold : Int) (ctx : EQCContext) : Verdict :=
  if ¬ (pyLower ctx.action.action = "send") then Verdict.allowV
  else
    match ctx.action.amount with
    | none => Verdict.allowV
    | some amount =>
      if amount < threshold then Verdict.allowV
      else
        Verdict.construct VerdictType.STEP_UP
          [{ code := ReasonCode.LARGE_AMOUNT,
             message := "High-value transfer detected (amount=" ++ toString amount ++
               " >= threshold=" ++ toString threshold ++ ").",
             details := [("threshold", toString threshold), ("amount", toString amount)] }]
          (some ⟨["confirm_user_intent"],
            some ("High-value send requires confirmation (>= " ++
              toString threshold ++ ").")⟩)

/-- The pack object the zero-argument constructor produces: threshold
10000, with the context-only evaluate signature of the source. -/
def highValuePack (DS TS : Type) : PackImpl EQCContext DS TS :=
  PackImpl.evalContextOnly (highValueEvaluate 10000)

/-- The import universe containing the shipped pack module: the high value
reference resolves to the pack class, instantiated with the zero-argument
constructor. -/
def packLoader (DS TS : Type) : String → Option (ModuleAttr EQCContext DS TS) :=
  fun ref =>
    if ref = highValueStepUpRef then
      some (ModuleAttr.cls (fun _ => highValuePack DS TS))
    else none

/-! ## EQC engine (core/eqc/engine.py) -/

/-- The signals dictionary of a decision: which hard invariant fired, or
the classifier outputs plus the pack verdict kinds. -/
inductive EQCSignals (DS TS : Type)
  | hostileRuntime (device_type : String)
  | ddStepUp (action asset : String)
  | evaluated (device : DS) (tx : TS) (policy_packs : List VerdictType)

/-- Embeds the EQCDecision dataclass. -/
structure EQCDecision (DS TS : Type) where
  context_hash : String
  verdict : Verdict
  signals : EQCSignals DS TS

/-- Embeds EQCEngine.decide, parameterized over the injected base policy,
classifiers, import universe, pre-registered packs and enabled references:
hard invariants first (browser deny, extension deny, DigiDollar mint or
redeem step-up, all compared case-insensitively), then classifiers, base
policy, policy packs and the deterministic merge. Errors raised by pack
resolution or the pack call propagate. -/
def EQCEngine.decide {DS TS : Type}
    (policy : EQCContext → DS → TS → Verdict)
    (deviceClassify : EQCContext → DS) (txClassify : EQCContext → TS)
    (loader : String → Option (ModuleAttr EQCContext DS TS))
    (registered : List (String × PackImpl EQCContext DS TS))
    (enabled : List String) (ctx : EQCContext) :
    Except String (EQCDecision DS TS) :=
  if pyLower ctx.device.device_type = "browser" then
    Except.ok
      { context_hash := ctx.contextHash,
        verdict := makeVerdict VerdictType.DENY ReasonCode.BROWSER_CONTEXT_BLOCKED
          "Execution denied: browser context is not permitted."
          [("device_type", pyLower ctx.device.device_type)],
        signals := EQCSignals.hostileRuntime (pyLower ctx.device.device_type) }
  else if pyLower ctx.device.device_type = "extension" then
    Except.ok
      { context_hash := ctx.contextHash,
        verdict := makeVerdict VerdictType.DENY ReasonCode.EXTENSION_CONTEXT_BLOCKED
          "Execution denied: extension context is not permitted."
          [("device_type", pyLower ctx.device.device_type)],
        signals := EQCSignals.hostileRuntime (pyLower ctx.device.device_type) }
  else if (pyLower ctx.action.action = "mint" ∨ pyLower ctx.action.action = "redeem") ∧
      (pyLower ctx.action.asset = "digidollar" ∨ pyLower ctx.action.asset = "dd") then
    Except.ok
      { context_hash := ctx.contextHash,
        verdict := attachStepUp
          (makeVerdict VerdictType.STEP_UP ReasonCode.MINT_REDEEM_REQUIRES_STEP_UP
            "Step-up required: DigiDollar mint/redeem requires additional confirmation."
            [("action", pyLower ctx.action.action), ("asset", pyLower ctx.action.asset)])
          ["confirm_user_intent"],
        signals := EQCSignals.ddStepUp (pyLower ctx.action.action) (pyLower ctx.action.asset) }
  else
    let device_signals := deviceClassify ctx
    let tx_signals := txClassify ctx
    let base_verdict := policy ctx device_signals tx_signals
    match registryEvaluate loader registered enabled ctx device_signals tx_signals with
    | Except.error e => Except.error e
    | Except.ok pack_verdicts =>
      Except.ok
        { context_hash := ctx.contextHash,
          verdict := mergeVerdicts (base_verdict :: pack_verdicts),
          signals := EQCSignals.evaluated device_signals tx_signals
            (pack_verdicts.map fun v => v.type) }

/-! ## Shield signing gate (core/runtime/shield_signing_gate.py)

The gate is modelled with the injected engine outcome (the engine is an
injectable parameter in the source, and the verdict type is all the gate
reads from the decision) and with the scope-bind, capability and guarded
executor path abstracted into its outcome and its executor-run count,
since core/wsqk/executor.py and its companions are not part of the
provided sources. -/

/-- The watch-only veto of the gate: the injected predicate wins when
present, else the persisted account store is consulted, else no veto. -/
def watchOnlyVeto (iwo store : Option (String → String → Bool))
    (wallet_id account_id : String) : Bool :=
  match iwo with
  | some f => f wallet_id account_id
  | none =>
    match store with
    | some g => g wallet_id account_id
    | none => false

/-- The watch-only block message of the gate. -/
def watchOnlyMsg : String := "watch-only account: signing is not permitted"

/-- The rendered name of a verdict kind, as the Python enum prints inside
the EQC block message. -/
def vtypeName : VerdictType → String
  | VerdictType.ALLOW => "VerdictType.ALLOW"
  | VerdictType.STEP_UP => "VerdictType.STEP_UP"
  | VerdictType.DENY => "VerdictType.DENY"

/-- Embeds execute_signing_intent: watch-only veto first, then the EQC
verdict must be ALLOW, then Shield must not block; only then the executor
runs — directly (exactly once) when use_wsqk is false, through the
scope-and-capability path otherwise. The second component counts how many
times the supplied executor ran. -/
def executeSigningIntent {α : Type}
    (iwo store : Option (String → String → Bool))
    (wallet_id account_id : String)
    (eqcVerdict : Except String VerdictType)
    (shieldBlocked : Bool) (shieldReason : String)
    (use_wsqk : Bool)
    (executorResult : α)
    (wsqkOutcome : Except String α) (wsqkExecRuns : Nat) :
    Except String α × Nat :=
  if watchOnlyVeto iwo store wallet_id account_id then
    (Except.error watchOnlyMsg, 0)
  else
    match eqcVerdict with
    | Except.error e => (Except.error e, 0)
    | Except.ok t =>
      if ¬ (t = VerdictType.ALLOW) then
        (Except.error ("EQC blocked signing intent: " ++ vtypeName t), 0)
      else if shieldBlocked then
        (Except.error ("Shield blocked signing intent: " ++ shieldReason), 0)
      else if ¬ use_wsqk then
        (Except.ok executorResult, 1)
      else
        (wsqkOutcome, wsqkExecRuns)

/-! ## Concrete snapshots for closed instances -/

/-- A send snapshot on a browser-typed device (mixed case, exercising the
case-insensitive comparison). -/
def ctxBrowserSend : EQCContext :=
  { action := ⟨"send", "DGB", some 1, none⟩,
    device := ⟨none, "Browser", "ios", false, none, none⟩,
    network := ⟨"mainnet", none, false, none, none, none⟩,
    user := ⟨none, false, false⟩,
    timestamp := 0, extra := [] }

/-- A DigiDollar mint snapshot on a browser-typed device: both the browser
invariant and the mint step-up condition hold, and the browser check runs
first. -/
def ctxBrowserMint : EQCContext :=
  { action := ⟨"mint", "DigiDollar", none, none⟩,
    device := ⟨none, "browser", "ios", false, none, none⟩,
    network := ⟨"mainnet", none, false, none, none, none⟩,
    user := ⟨none, false, false⟩,
    timestamp := 0, extra := [] }

/-- A DigiDollar mint snapshot on a trusted mobile device. -/
def ctxMobileMint : EQCContext :=
  { action := ⟨"Mint", "DigiDollar", none, none⟩,
    device := ⟨none, "mobile", "ios", true, none, none⟩,
    network := ⟨"mainnet", none, false, none, none, none⟩,
    user := ⟨none, false, false⟩,
    timestamp := 0, extra := [] }

/-- The high-value send snapshot of the repository test: amount well above
the pack threshold, trusted mobile device. -/
def ctxHighValueSend : EQCContext :=
  { action := ⟨"send", "DGB", some 10000000, some "DGB1-test"⟩,
    device := ⟨none, "mobile", "ios", true, none, some "0.1.0"⟩,
    network := ⟨"mainnet", some "local", true, some "0.9", none, some 8⟩,
    user := ⟨some "user-1", true, true⟩,
    timestamp := 1766877694, extra := [] }

/-- A distinguishable verdict returned by the pack registered as packs:A. -/
def verdictPackA : Verdict :=
  Verdict.construct VerdictType.DENY [safeReason "pack A fired" []] none

/-- A distinguishable verdict returned by the pack registered as packs:B. -/
def verdictPackB : Verdict :=
  Verdict.construct VerdictType.DENY [safeReason "pack B fired" []] none

/-- A registry holding two keyword-compatible packs under sorted-order
names. -/
def twoPackRegistry : List (String × PackImpl Unit Unit Unit) :=
  [("packs:A", PackImpl.evalWithSignals (fun _ _ _ => some verdictPackA)),
   ("packs:B", PackImpl.evalWithSignals (fun _ _ _ => some verdictPackB))]

/-! ## Lemmas about the merge -/

theorem construct_type (t : VerdictType) (rs : List Reason) (su : Option StepUp) :
    (Verdict.construct t rs su).type = t := by
  unfold Verdict.construct; split <;> rfl

theorem construct_reasons (t : VerdictType) (rs : List Reason) (su : Option StepUp) :
    (Verdict.construct t rs su).reasons = rs := by
  unfold Verdict.construct; split <;> rfl

theorem construct_step_up_of_ne {t : VerdictType} (rs : List Reason) (su : Option StepUp)
    (h : t ≠ VerdictType.STEP_UP) : (Verdict.construct t rs su).step_up = none := by
  unfold Verdict.construct
  rw [if_neg h]

theorem construct_step_up_eq (rs : List Reason) (su : Option StepUp) :
    (Verdict.construct VerdictType.STEP_UP rs su).step_up =
      some (su.getD ⟨["confirm_user_intent"], none⟩) := by
  rfl

theorem merge_deny_shape (v : Verdict) (vs : List Verdict)
    (h : (v :: vs).any (fun x => x.type = VerdictType.DENY) = true) :
    mergeVerdicts (v :: vs) = Verdict.construct VerdictType.DENY
      (let merged :=
        ((((v :: vs).filter (fun x => x.type = VerdictType.DENY)).map fun x => x.reasons).flatten)
       if merged.isEmpty then [safeReason "Denied by EQC policy evaluation." []] else merged)
      none := by
  unfold mergeVerdicts
  simp only [h, if_true]

theorem merge_step_up_shape (v : Verdict) (vs : List Verdict)
    (hd : (v :: vs).any (fun x => x.type = VerdictType.DENY) = false)
    (hs : (v :: vs).any (fun x => x.type = VerdictType.STEP_UP) = true) :
    mergeVerdicts (v :: vs) = Verdict.construct VerdictType.STEP_UP
      (let merged :=
        ((((v :: vs).filter (fun x => x.type = VerdictType.STEP_UP)).map fun x => x.reasons).flatten)
       if merged.isEmpty then
         [safeReason "Step-up required by EQC policy evaluation." []] else merged)
      (firstStepUp ((v :: vs).filter (fun x => x.type = VerdictType.STEP_UP))) := by
  unfold mergeVerdicts
  simp only [hd, hs, if_true, Bool.false_eq_true, if_false]

theorem merge_allow_shape (v : Verdict) (vs : List Verdict)
    (hd : (v :: vs).any (fun x => x.type = VerdictType.DENY) = false)
    (hs : (v :: vs).any (fun x => x.type = VerdictType.STEP_UP) = false)
    (hne : ((v :: vs).filter (fun x => x.type = VerdictType.ALLOW)).isEmpty = false) :
    mergeVerdicts (v :: vs) = Verdict.construct VerdictType.ALLOW
      (let merged :=
        ((((v :: vs).filter (fun x => x.type = VerdictType.ALLOW)).map fun x => x.reasons).flatten)
       if merged.isEmpty then [safeReason "Allowed by EQC policy evaluation." []] else merged)
      none := by
  unfold mergeVerdicts
  simp only [hd, hs, hne, Bool.false_eq_true, if_false, Bool.not_false, if_true, not_false_iff]

/-- When no DENY and no STEP_UP occur in the list, every element is ALLOW. -/
theorem all_allow_of_no_deny_step_up (vs : List Verdict)
    (hd : vs.any (fun x => x.type = VerdictType.DENY) = false)
    (hs : vs.any (fun x => x.type = VerdictType.STEP_UP) = false) :
    ∀ x ∈ vs, x.type = VerdictType.ALLOW := by
  intro x hx
  have hxd : ¬ x.type = VerdictType.DENY := by
    intro hcon
    have := List.any_eq_false.mp hd x hx
    simp [hcon] at this
  have hxs : ¬ x.type = VerdictType.STEP_UP := by
    intro hcon
    have := List.any_eq_false.mp hs x hx
    simp [hcon] at this
  cases hx2 : x.type with
  | ALLOW => rfl
  | STEP_UP => exact absurd hx2 hxs
  | DENY => exact absurd hx2 hxd

theorem vtypeRank_le_two (t : VerdictType) : vtypeRank t ≤ 2 := by
  cases t <;> decide

theorem vtypeRank_le_one_of_ne_deny {t : VerdictType} (h : t ≠ VerdictType.DENY) :
    vtypeRank t ≤ 1 := by
  cases t <;> first | decide | exact absurd rfl h

theorem not_deny_of_any_false {vs : List Verdict}
    (hd : vs.any (fun x => x.type = VerdictType.DENY) = false)
    {x : Verdict} (hx : x ∈ vs) : x.type ≠ VerdictType.DENY := by
  intro hcon
  have := List.any_eq_false.mp hd x hx
  simp [hcon] at this

/-- C3: for every base verdict and finite list of pack verdicts, the merged
verdict is at least as strong as the base under ALLOW below STEP_UP below
DENY, the reasons of all verdicts of the winning kind are concatenated in
encounter order (with the default reason of the winning kind substituted
only when the concatenation is empty), and no pack ALLOW can downgrade a
base DENY or STEP_UP. -/
theorem merge_tightening_monotone (base : Verdict) (packs : List Verdict) :
    vtypeRank base.type ≤ vtypeRank (mergeVerdicts (base :: packs)).type ∧
    (∀ p ∈ packs, vtypeRank p.type ≤ vtypeRank (mergeVerdicts (base :: packs)).type) ∧
    ((mergeVerdicts (base :: packs)).reasons =
      (let concat := ((((base :: packs).filter
          (fun v => v.type = (mergeVerdicts (base :: packs)).type)).map fun v => v.reasons).flatten)
       if concat.isEmpty then [defaultMergeReason (mergeVerdicts (base :: packs)).type]
       else concat)) ∧
    (base.type = VerdictType.DENY → (mergeVerdicts (base :: packs)).type = VerdictType.DENY) ∧
    (base.type = VerdictType.STEP_UP →
      (mergeVerdicts (base :: packs)).type ≠ VerdictType.ALLOW) := by
  cases hd : (base :: packs).any (fun x => x.type = VerdictType.DENY) with
  | true =>
    have hshape := merge_deny_shape base packs hd
    have htype : (mergeVerdicts (base :: packs)).type = VerdictType.DENY := by
      rw [hshape, construct_type]
    refine ⟨?_, ?_, ?_, ?_, ?_⟩
    · rw [htype]; exact vtypeRank_le_two _
    · intro p _; rw [htype]; exact vtypeRank_le_two _
    · rw [htype, hshape, construct_reasons]
      simp only [defaultMergeReason]
    · intro _; exact htype
    · intro _; rw [htype]; decide
  | false =>
    cases hs : (base :: packs).any (fun x => x.type = VerdictType.STEP_UP) with
    | true =>
      have hshape := merge_step_up_shape base packs hd hs
      have htype : (mergeVerdicts (base :: packs)).type = VerdictType.STEP_UP := by
        rw [hshape, construct_type]
      have hbase : base.type ≠ VerdictType.DENY :=
        not_deny_of_any_false hd (List.mem_cons_self _ _)
      refine ⟨?_, ?_, ?_, ?_, ?_⟩
      · rw [htype]; exact vtypeRank_le_one_of_ne_deny hbase
      · intro p hp; rw [htype]
        exact vtypeRank_le_one_of_ne_deny
          (not_deny_of_any_false hd (List.mem_cons_of_mem _ hp))
      · rw [htype, hshape, construct_reasons]
        simp only [defaultMergeReason]
      · intro hcon; exact absurd hcon hbase
      · intro _; rw [htype]; decide
    | false =>
      have hball : base.type = VerdictType.ALLOW := by
        exact all_allow_of_no_deny_step_up _ hd hs base (List.mem_cons_self _ _)
      have hne : (((base :: packs).filter
          (fun x => x.type = VerdictType.ALLOW)).isEmpty) = false := by
        rw [List.filter_cons]
        simp [hball]
      have hshape := merge_allow_shape base packs hd hs hne
      have htype : (mergeVerdicts (base :: packs)).type = VerdictType.ALLOW := by
        rw [hshape, construct_type]
      refine ⟨?_, ?_, ?_, ?_, ?_⟩
      · rw [htype, hball]
      · intro p hp; rw [htype]
        rw [all_allow_of_no_deny_step_up _ hd hs p (List.mem_cons_of_mem _ hp)]
      · rw [htype, hshape, construct_reasons]
        simp only [defaultMergeReason]
      · intro hcon; rw [hball] at hcon; exact absurd hcon (by decide)
      · intro hcon; rw [hball] at hcon; exact absurd hcon (by decide)

/-- Closed instance of the C3 theorem: a base DENY merged with a pack ALLOW
stays DENY. -/
theorem merge_tightening_monotone_witness :
    (mergeVerdicts
      (makeVerdict VerdictType.DENY ReasonCode.ENGINE_INVARIANT "denied" [] ::
        [Verdict.allowV])).type = VerdictType.DENY :=
  (merge_tightening_monotone
    (makeVerdict VerdictType.DENY ReasonCode.ENGINE_INVARIANT "denied" [])
    [Verdict.allowV]).2.2.2.1 rfl

/-- C8: whenever the merge of base and pack verdicts yields kind STEP_UP,
the result carries the first non-null step-up payload among the winning
STEP_UP verdicts, with the default confirm_user_intent requirement supplied
when none carries one; and the merged verdict has a step-up payload exactly
when its kind is STEP_UP. -/
theorem merge_step_up_payload (base : Verdict) (packs : List Verdict) :
    ((mergeVerdicts (base :: packs)).type = VerdictType.STEP_UP →
      (mergeVerdicts (base :: packs)).step_up =
        some ((firstStepUp ((base :: packs).filter
          (fun v => v.type = VerdictType.STEP_UP))).getD ⟨["confirm_user_intent"], none⟩)) ∧
    ((mergeVerdicts (base :: packs)).step_up.isSome ↔
      (mergeVerdicts (base :: packs)).type = VerdictType.STEP_UP) := by
  cases hd : (base :: packs).any (fun x => x.type = VerdictType.DENY) with
  | true =>
    have hshape := merge_deny_shape base packs hd
    have htype : (mergeVerdicts (base :: packs)).type = VerdictType.DENY := by
      rw [hshape, construct_type]
    have hsu : (mergeVerdicts (base :: packs)).step_up = none := by
      rw [hshape]; exact construct_step_up_of_ne _ _ (by decide)
    constructor
    · intro hcon; rw [htype] at hcon; exact absurd hcon (by decide)
    · rw [hsu, htype]; simp
  | false =>
    cases hs : (base :: packs).any (fun x => x.type = VerdictType.STEP_UP) with
    | true =>
      have hshape := merge_step_up_shape base packs hd hs
      have htype : (mergeVerdicts (base :: packs)).type = VerdictType.STEP_UP := by
        rw [hshape, construct_type]
      have hsu := construct_step_up_eq
        (let merged :=
          ((((base :: packs).filter (fun x => x.type = VerdictType.STEP_UP)).map
            fun x => x.reasons).flatten)
         if merged.isEmpty then
           [safeReason "Step-up required by EQC policy evaluation." []] else merged)
        (firstStepUp ((base :: packs).filter (fun x => x.type = VerdictType.STEP_UP)))
      constructor
      · intro _; rw [hshape]; exact hsu
      · rw [htype]; rw [hshape, hsu]; simp
    | false =>
      have hball : base.type = VerdictType.ALLOW := by
        exact all_allow_of_no_deny_step_up _ hd hs base (List.mem_cons_self _ _)
      have hne : (((base :: packs).filter
          (fun x => x.type = VerdictType.ALLOW)).isEmpty) = false := by
        rw [List.filter_cons]
        simp [hball]
      have hshape := merge_allow_shape base packs hd hs hne
      have htype : (mergeVerdicts (base :: packs)).type = VerdictType.ALLOW := by
        rw [hshape, construct_type]
      have hsu : (mergeVerdicts (base :: packs)).step_up = none := by
        rw [hshape]; exact construct_step_up_of_ne _ _ (by decide)
      constructor
      · intro hcon; rw [htype] at hcon; exact absurd hcon (by decide)
      · rw [hsu, htype]; simp

/-- C5: on an active session, the first consumption of a nonce under a
scope fingerprint (a non-empty hash, with the composed key not yet
recorded) succeeds and inserts the key scope-colon-nonce; any session whose
used set holds that key rejects the same pair with the nonce replay error
while active; an inactive session rejects any consumption with the
session-not-active error, leaving the set untouched; and every successful
consumption only grows the used set. -/
theorem session_consume_nonce_lifecycle
    (s : WSQKSession) (sc nonce : String) (now : Int)
    (hactive : s.isActive now = true) (hsc : sc ≠ "")
    (hfresh : sc ++ ":" ++ nonce ∉ s.used_nonces) :
    consumeNonce s nonce (some sc) now =
      Except.ok { s with used_nonces := (sc ++ ":" ++ nonce) :: s.used_nonces } ∧
    (∀ (s2 : WSQKSession) (now2 : Int), sc ++ ":" ++ nonce ∈ s2.used_nonces →
      s2.isActive now2 = true →
      consumeNonce s2 nonce (some sc) now2 = Except.error nonceReplayMsg) ∧
    (∀ (s3 : WSQKSession) (n3 : String) (sc3 : Option String) (now3 : Int),
      s3.isActive now3 = false →
      consumeNonce s3 n3 sc3 now3 = Except.error sessionNotActiveMsg) ∧
    (∀ (s4 s5 : WSQKSession) (n4 : String) (sc4 : Option String) (now4 : Int),
      consumeNonce s4 n4 sc4 now4 = Except.ok s5 →
      s4.used_nonces ⊆ s5.used_nonces) := by
  refine ⟨?_, ?_, ?_, ?_⟩
  · unfold consumeNonce
    rw [hactive, if_pos rfl]
    simp only [nonceKey, if_neg hsc]
    rw [if_neg hfresh]
  · intro s2 now2 hmem hact2
    unfold consumeNonce
    rw [hact2, if_pos rfl]
    simp only [nonceKey, if_neg hsc]
    rw [if_pos hmem]
  · intro s3 n3 sc3 now3 hina
    unfold consumeNonce
    rw [hina]
    simp
  · intro s4 s5 n4 sc4 now4 hok
    unfold consumeNonce at hok
    by_cases hact : s4.isActive now4 = true
    · rw [hact, if_pos rfl] at hok
      by_cases hmem : nonceKey sc4 n4 ∈ s4.used_nonces
      · rw [if_pos hmem] at hok; exact absurd hok (by simp)
      · rw [if_neg hmem] at hok
        have : s5 = { s4 with used_nonces := nonceKey sc4 n4 :: s4.used_nonces } := by
          injection hok with h; exact h.symm
        rw [this]
        exact List.subset_cons_self _ _
    · rw [Bool.not_eq_true] at hact
      rw [hact] at hok
      exact absurd hok (by simp)

/-- Closed instance of the C5 theorem: a fresh active session records the
composed key on first use of a scoped nonce. -/
theorem session_consume_nonce_lifecycle_witness :
    consumeNonce (WSQKSession.make none 60 "sid" 0) "n1" (some "ab") 0 =
      Except.ok { wallet_id := none, ttl_seconds := 60, session_id := "sid",
                  created_at := 0, expires_at := 60, used_nonces := ["ab:n1"] } :=
  (session_consume_nonce_lifecycle (WSQKSession.make none 60 "sid" 0) "ab" "n1" 0
    (by decide) (by decide) (by simp [WSQKSession.make])).1

/-- Counterexample to C10 as stated: on a session whose only prior
consumption was nonce b-colon-c under scope a (so the bare nonce a-colon-
b-colon-c was never consumed without a scope), an unscoped consumption of
that bare nonce nevertheless raises the nonce replay error, because the
scoped consumption recorded the identical key string. -/
theorem consume_nonce_unscoped_collision_counterexample :
    consumeNonce (WSQKSession.make none 60 "sid" 0) "b:c" (some "a") 0 =
      Except.ok { wallet_id := none, ttl_seconds := 60, session_id := "sid",
                  created_at := 0, expires_at := 60, used_nonces := ["a:b:c"] } ∧
    consumeNonce { wallet_id := none, ttl_seconds := 60, session_id := "sid",
                   created_at := 0, expires_at := 60, used_nonces := ["a:b:c"] }
        "a:b:c" none 0 =
      Except.error nonceReplayMsg := by
  constructor
  · rfl
  · rfl

/-- C10 as amended: with scope hash omitted, None, or empty the bare nonce
string is recorded as the used key; consumption then fails with the nonce
replay error exactly when that bare string is already a recorded key (which
a scoped consumption can also have produced when its composed key equals
the bare nonce); and a consumption of the same nonce under a non-empty
scope hash records a different key than the unscoped one. -/
theorem consume_nonce_unscoped_semantics (s : WSQKSession) (nonce : String) (now : Int)
    (hactive : s.isActive now = true) :
    nonceKey none nonce = nonce ∧
    nonceKey (some "") nonce = nonce ∧
    (consumeNonce s nonce none now = Except.error nonceReplayMsg ↔
      nonce ∈ s.used_nonces) ∧
    (nonce ∉ s.used_nonces →
      consumeNonce s nonce none now =
        Except.ok { s with used_nonces := nonce :: s.used_nonces }) ∧
    (∀ sc : String, sc ≠ "" → nonceKey (some sc) nonce ≠ nonce) := by
  refine ⟨rfl, rfl, ?_, ?_, ?_⟩
  · constructor
    · intro herr
      by_contra hmem
      unfold consumeNonce at herr
      rw [hactive, if_pos rfl] at herr
      simp only [nonceKey] at herr
      rw [if_neg hmem] at herr
      exact absurd herr (by simp)
    · intro hmem
      unfold consumeNonce
      rw [hactive, if_pos rfl]
      simp only [nonceKey]
      rw [if_pos hmem]
  · intro hmem
    unfold consumeNonce
    rw [hactive, if_pos rfl]
    simp only [nonceKey]
    rw [if_neg hmem]
  · intro sc hsc hcon
    have hkey : nonceKey (some sc) nonce = sc ++ ":" ++ nonce := by
      show (if sc = "" then nonce else sc ++ ":" ++ nonce) = sc ++ ":" ++ nonce
      rw [if_neg hsc]
    rw [hkey] at hcon
    have hlen := congrArg String.length hcon
    rw [String.length_append, String.length_append] at hlen
    have hone : (":" : String).length = 1 := rfl
    rw [hone] at hlen
    omega

/-- Closed instance of the amended C10 theorem: an unscoped consumption on
a fresh session records the bare nonce. -/
theorem consume_nonce_unscoped_semantics_witness :
    consumeNonce (WSQKSession.make none 60 "sid" 0) "n1" none 0 =
      Except.ok { wallet_id := none, ttl_seconds := 60, session_id := "sid",
                  created_at := 0, expires_at := 60, used_nonces := ["n1"] } :=
  (consume_nonce_unscoped_semantics (WSQKSession.make none 60 "sid" 0) "n1" 0
    (by decide)).2.2.2.1 (by simp [WSQKSession.make])

set_option maxRecDepth 1000000 in
/-- Counterexample to C9 as stated: on a concrete snapshot, context_hash
differs from the hex SHA-256 of the serialization with insignificant
whitespace omitted, because json.dumps is called without compact
separators and therefore emits a space after every comma and colon. -/
theorem context_hash_whitespace_counterexample :
    EQCContext.contextHash ctxWhitespace ≠ claimCanonicalFingerprint ctxWhitespace := by
  decide

/-- C9 as amended: context_hash is the hex SHA-256 of the json.dumps
serialization of the snapshot dictionary with keys sorted lexicographically
at every level and the default separators, which place a space after each
comma and each colon; the serialization equals the explicit sorted-key
rendering; and snapshots with identical field values produce identical
fingerprints. The operation is a total function by construction. -/
theorem context_hash_canonical_serialization (ctx : EQCContext) :
    ctx.contextHash = sha256Hex (utf8Encode (canonicalSortedRender ctx)) ∧
    renderDoc ctx.toDict = canonicalSortedRender ctx ∧
    (∀ c2 : EQCContext, c2.action = ctx.action → c2.device = ctx.device →
      c2.network = ctx.network → c2.user = ctx.user →
      c2.timestamp = ctx.timestamp → c2.extra = ctx.extra →
      c2.contextHash = ctx.contextHash) := by
  refine ⟨by rfl, by rfl, ?_⟩
  intro c2 h1 h2 h3 h4 h5 h6
  cases c2
  cases ctx
  simp only at h1 h2 h3 h4 h5 h6
  subst h1; subst h2; subst h3; subst h4; subst h5; subst h6
  rfl

/-- Closed instance of the amended C9 theorem: two syntactically distinct
snapshot expressions with identical field values share one fingerprint. -/
theorem context_hash_canonical_serialization_witness :
    EQCContext.contextHash
      { action := { action := "send", asset := "DGB", amount := some 1, recipient := none },
        device := { device_id := none, device_type := "mobile", os := "ios",
                    trusted := false, first_seen_ts := none, app_version := none },
        network := { network := "mainnet", node_type := none, node_trusted := false,
                     entropy_score := none, fee_rate := none, peer_count := none },
        user := { user_id := none, biometric_available := false, pin_set := false },
        timestamp := 0, extra := [] } =
    EQCContext.contextHash ctxWhitespace :=
  (context_hash_canonical_serialization ctxWhitespace).2.2 _ rfl rfl rfl rfl rfl rfl

/-- C1: for every context whose device type lowercases to browser or
extension, decide returns a DENY decision carrying the matching blocked
reason code and the hostile runtime signals, and the decision does not
depend on the injected base policy, classifiers, import universe,
registered packs or enabled pack references, so none of them is
evaluated. -/
theorem decide_browser_extension_denied {DS TS : Type}
    (policy : EQCContext → DS → TS → Verdict)
    (dev : EQCContext → DS) (tx : EQCContext → TS)
    (loader : String → Option (ModuleAttr EQCContext DS TS))
    (registered : List (String × PackImpl EQCContext DS TS))
    (enabled : List String) (ctx : EQCContext)
    (h : pyLower ctx.device.device_type = "browser" ∨
         pyLower ctx.device.device_type = "extension") :
    EQCEngine.decide policy dev tx loader registered enabled ctx =
      Except.ok
        { context_hash := ctx.contextHash,
          verdict := makeVerdict VerdictType.DENY
            (if pyLower ctx.device.device_type = "browser" then
              ReasonCode.BROWSER_CONTEXT_BLOCKED
             else ReasonCode.EXTENSION_CONTEXT_BLOCKED)
            (if pyLower ctx.device.device_type = "browser" then
              "Execution denied: browser context is not permitted."
             else "Execution denied: extension context is not permitted.")
            [("device_type", pyLower ctx.device.device_type)],
          signals := EQCSignals.hostileRuntime (pyLower ctx.device.device_type) } ∧
    (∀ (policy2 : EQCContext → DS → TS → Verdict)
       (dev2 : EQCContext → DS) (tx2 : EQCContext → TS)
       (loader2 : String → Option (ModuleAttr EQCContext DS TS))
       (registered2 : List (String × PackImpl EQCContext DS TS))
       (enabled2 : List String),
      EQCEngine.decide policy2 dev2 tx2 loader2 registered2 enabled2 ctx =
        EQCEngine.decide policy dev tx loader registered enabled ctx) := by
  rcases h with h | h
  · constructor
    · simp [EQCEngine.decide, h]
    · intro policy2 dev2 tx2 loader2 registered2 enabled2
      simp [EQCEngine.decide, h]
  · constructor
    · simp [EQCEngine.decide, h]
    · intro policy2 dev2 tx2 loader2 registered2 enabled2
      simp [EQCEngine.decide, h]

/-- Closed instance of the C1 theorem: a mixed-case Browser device is
structurally denied with the browser blocked code, whatever the policy
would say. -/
theorem decide_browser_extension_denied_witness :
    EQCEngine.decide (fun _ _ _ => Verdict.allowV) (fun _ => ()) (fun _ => ())
        (fun _ => none) [] [] ctxBrowserSend =
      Except.ok
        { context_hash := ctxBrowserSend.contextHash,
          verdict := makeVerdict VerdictType.DENY ReasonCode.BROWSER_CONTEXT_BLOCKED
            "Execution denied: browser context is not permitted."
            [("device_type", "browser")],
          signals := EQCSignals.hostileRuntime "browser" } :=
  (decide_browser_extension_denied (fun _ _ _ => Verdict.allowV) (fun _ => ())
    (fun _ => ()) (fun _ => none) [] [] ctxBrowserSend (Or.inl (by decide))).1

/-- Counterexample to C4 as stated: a DigiDollar mint snapshot whose device
type is browser is denied by the earlier browser invariant, not stepped
up, so the claim fails without a device-type restriction. -/
theorem decide_mint_browser_counterexample :
    (EQCEngine.decide (fun _ _ _ => Verdict.allowV) (fun _ => ()) (fun _ => ())
        (fun _ => none) [] [] ctxBrowserMint).map (fun d => d.verdict.type) =
      Except.ok VerdictType.DENY ∧
    VerdictType.DENY ≠ VerdictType.STEP_UP :=
  ⟨rfl, by decide⟩

/-- C4 as amended: for every context whose device type lowercases neither
to browser nor to extension, whose action lowercases to mint or redeem and
whose asset lowercases to digidollar or dd, decide returns the step-up
decision with the MINT_REDEEM_REQUIRES_STEP_UP code and the
confirm_user_intent requirement, independent of the injected policy,
classifiers and packs. -/
theorem decide_mint_redeem_step_up {DS TS : Type}
    (policy : EQCContext → DS → TS → Verdict)
    (dev : EQCContext → DS) (tx : EQCContext → TS)
    (loader : String → Option (ModuleAttr EQCContext DS TS))
    (registered : List (String × PackImpl EQCContext DS TS))
    (enabled : List String) (ctx : EQCContext)
    (hb : ¬ pyLower ctx.device.device_type = "browser")
    (he : ¬ pyLower ctx.device.device_type = "extension")
    (ha : pyLower ctx.action.action = "mint" ∨ pyLower ctx.action.action = "redeem")
    (hs : pyLower ctx.action.asset = "digidollar" ∨ pyLower ctx.action.asset = "dd") :
    EQCEngine.decide policy dev tx loader registered enabled ctx =
      Except.ok
        { context_hash := ctx.contextHash,
          verdict := attachStepUp
            (makeVerdict VerdictType.STEP_UP ReasonCode.MINT_REDEEM_REQUIRES_STEP_UP
              "Step-up required: DigiDollar mint/redeem requires additional confirmation."
              [("action", pyLower ctx.action.action), ("asset", pyLower ctx.action.asset)])
            ["confirm_user_intent"],
          signals := EQCSignals.ddStepUp (pyLower ctx.action.action)
            (pyLower ctx.action.asset) } ∧
    (attachStepUp
      (makeVerdict VerdictType.STEP_UP ReasonCode.MINT_REDEEM_REQUIRES_STEP_UP
        "Step-up required: DigiDollar mint/redeem requires additional confirmation."
        [("action", pyLower ctx.action.action), ("asset", pyLower ctx.action.asset)])
      ["confirm_user_intent"]).step_up = some ⟨["confirm_user_intent"], none⟩ ∧
    (∀ (policy2 : EQCContext → DS → TS → Verdict)
       (dev2 : EQCContext → DS) (tx2 : EQCContext → TS)
       (loader2 : String → Option (ModuleAttr EQCContext DS TS))
       (registered2 : List (String × PackImpl EQCContext DS TS))
       (enabled2 : List String),
      EQCEngine.decide policy2 dev2 tx2 loader2 registered2 enabled2 ctx =
        EQCEngine.decide policy dev tx loader registered enabled ctx) := by
  refine ⟨?_, rfl, ?_⟩
  · simp [EQCEngine.decide, if_neg hb, if_neg he, if_pos (And.intro ha hs)]
  · intro policy2 dev2 tx2 loader2 registered2 enabled2
    simp [EQCEngine.decide, if_neg hb, if_neg he, if_pos (And.intro ha hs)]

/-- Closed instance of the amended C4 theorem: a mixed-case Mint of
DigiDollar on a mobile device is stepped up with the confirm_user_intent
requirement. -/
theorem decide_mint_redeem_step_up_witness :
    EQCEngine.decide (fun _ _ _ => Verdict.allowV) (fun _ => ()) (fun _ => ())
        (fun _ => none) [] [] ctxMobileMint =
      Except.ok
        { context_hash := ctxMobileMint.contextHash,
          verdict := attachStepUp
            (makeVerdict VerdictType.STEP_UP ReasonCode.MINT_REDEEM_REQUIRES_STEP_UP
              "Step-up required: DigiDollar mint/redeem requires additional confirmation."
              [("action", "mint"), ("asset", "digidollar")])
            ["confirm_user_intent"],
          signals := EQCSignals.ddStepUp "mint" "digidollar" } :=
  (decide_mint_redeem_step_up (fun _ _ _ => Verdict.allowV) (fun _ => ()) (fun _ => ())
    (fun _ => none) [] [] ctxMobileMint (by decide) (by decide)
    (Or.inl (by decide)) (Or.inl (by decide))).1

/-- C6: the registry resolves the high value pack reference by
instantiating the class with a zero-argument constructor, and the pack
itself tightens the test snapshot to STEP_UP with the LARGE_AMOUNT reason;
but the registry calls evaluate with the keyword signal arguments, which
the context-only signature of the pack rejects, so decide raises TypeError
on the high-value send instead of returning the merged STEP_UP the
repository test test_eqc_policy_packs_invariant.py expects. -/
theorem high_value_pack_keyword_call_bug {DS TS : Type}
    (policy : EQCContext → DS → TS → Verdict)
    (dev : EQCContext → DS) (tx : EQCContext → TS) :
    resolvePackRef (packLoader DS TS) highValueStepUpRef =
      Except.ok (highValuePack DS TS) ∧
    (highValueEvaluate 10000 ctxHighValueSend).type = VerdictType.STEP_UP ∧
    (highValueEvaluate 10000 ctxHighValueSend).reasons.map (fun r => r.code) =
      [ReasonCode.LARGE_AMOUNT] ∧
    (highValueEvaluate 10000 ctxHighValueSend).step_up =
      some ⟨["confirm_user_intent"],
        some "High-value send requires confirmation (>= 10000)."⟩ ∧
    EQCEngine.decide policy dev tx (packLoader DS TS) [] [highValueStepUpRef]
      ctxHighValueSend = Except.error typeErrorMsg :=
  ⟨rfl, rfl, rfl, rfl, rfl⟩

/-- Counterexample to C7 as stated: with two keyword-compatible packs
registered as packs:A and packs:B and enabled in the order B then A, the
registry returns the verdicts in enabled order B then A, which differs
from the sorted-reference order A then B. -/
theorem registry_sorted_order_counterexample :
    registryEvaluate (fun _ => none) twoPackRegistry ["packs:B", "packs:A"]
      () () () = Except.ok [verdictPackB, verdictPackA] ∧
    registryEvaluate (fun _ => none) twoPackRegistry ["packs:A", "packs:B"]
      () () () = Except.ok [verdictPackA, verdictPackB] ∧
    ([verdictPackB, verdictPackA] : List Verdict) ≠ [verdictPackA, verdictPackB] :=
  ⟨rfl, rfl, by decide⟩

/-- C7 as amended: the registry evaluates packs in the order the enabled
list gives them (after stripping, skipping blanks), so when every enabled
reference is registered to a keyword-compatible pack the returned verdicts
follow the enabled-list encounter order. -/
theorem registry_evaluates_in_enabled_order {Ctx DS TS : Type}
    (loader : String → Option (ModuleAttr Ctx DS TS))
    (reg : List (String × PackImpl Ctx DS TS)) (enabled : List String)
    (ctx : Ctx) (ds : DS) (ts : TS)
    (h : ∀ ref ∈ enabled, pyStrip ref = "" ∨
      ∃ f, reg.lookup (pyStrip ref) = some (PackImpl.evalWithSignals f)) :
    registryEvaluate loader reg enabled ctx ds ts =
      Except.ok (enabled.filterMap fun ref =>
        if pyStrip ref = "" then none
        else
          match reg.lookup (pyStrip ref) with
          | some (PackImpl.evalWithSignals f) => f ctx ds ts
          | _ => none) := by
  induction enabled with
  | nil => rfl
  | cons refh rest ih =>
    have hrest : ∀ r ∈ rest, pyStrip r = "" ∨
        ∃ f, reg.lookup (pyStrip r) = some (PackImpl.evalWithSignals f) :=
      fun r hr => h r (List.mem_cons_of_mem _ hr)
    by_cases hb : pyStrip refh = ""
    · simp only [registryEvaluate, hb, if_pos rfl, List.filterMap_cons, if_true]
      exact ih hrest
    · obtain hblank | ⟨f, hf⟩ := h refh (List.mem_cons_self _ _)
      · exact absurd hblank hb
      · have hload : ensureLoaded loader reg (pyStrip refh) = Except.ok reg := by
          unfold ensureLoaded
          rw [if_neg hb, if_pos (by rw [hf]; rfl)]
        simp only [registryEvaluate, if_neg hb, hload, hf, ih hrest, callPack,
          List.filterMap_cons]
        cases hout : f ctx ds ts with
        | none => simp
        | some v => simp

/-- Closed instance of the amended C7 theorem: the two registered packs
enabled as B then A produce their verdicts in that order. -/
theorem registry_evaluates_in_enabled_order_witness :
    registryEvaluate (fun _ => none) twoPackRegistry ["packs:B", "packs:A"]
      () () () = Except.ok [verdictPackB, verdictPackA] :=
  registry_evaluates_in_enabled_order (fun _ => none) twoPackRegistry
    ["packs:B", "packs:A"] () () ()
    (by
      intro ref hr
      simp only [List.mem_cons, List.mem_singleton, List.not_mem_nil, or_false] at hr
      rcases hr with rfl | rfl
      · exact Or.inr ⟨fun _ _ _ => some verdictPackB, rfl⟩
      · exact Or.inr ⟨fun _ _ _ => some verdictPackA, rfl⟩)

/-- C2: the gate runs the supplied executor only when the watch-only check
passes, the EQC verdict is ALLOW and Shield does not block; each failing
check blocks with the corresponding error and a zero executor-run count,
for either value of use_wsqk; and when all checks pass with use_wsqk
false the executor runs exactly once. -/
theorem signing_gate_short_circuits {α : Type}
    (iwo store : Option (String → String → Bool))
    (wallet_id account_id : String)
    (eqcVerdict : Except String VerdictType)
    (shieldBlocked : Bool) (shieldReason : String)
    (use_wsqk : Bool) (executorResult : α)
    (wsqkOutcome : Except String α) (wsqkExecRuns : Nat) :
    (watchOnlyVeto iwo store wallet_id account_id = true →
      executeSigningIntent iwo store wallet_id account_id eqcVerdict shieldBlocked
        shieldReason use_wsqk executorResult wsqkOutcome wsqkExecRuns =
        (Except.error watchOnlyMsg, 0)) ∧
    (watchOnlyVeto iwo store wallet_id account_id = false →
      ∀ t, eqcVerdict = Except.ok t → ¬ (t = VerdictType.ALLOW) →
      executeSigningIntent iwo store wallet_id account_id eqcVerdict shieldBlocked
        shieldReason use_wsqk executorResult wsqkOutcome wsqkExecRuns =
        (Except.error ("EQC blocked signing intent: " ++ vtypeName t), 0)) ∧
    (watchOnlyVeto iwo store wallet_id account_id = false →
      eqcVerdict = Except.ok VerdictType.ALLOW → shieldBlocked = true →
      executeSigningIntent iwo store wallet_id account_id eqcVerdict shieldBlocked
        shieldReason use_wsqk executorResult wsqkOutcome wsqkExecRuns =
        (Except.error ("Shield blocked signing intent: " ++ shieldReason), 0)) ∧
    (0 < (executeSigningIntent iwo store wallet_id account_id eqcVerdict shieldBlocked
        shieldReason use_wsqk executorResult wsqkOutcome wsqkExecRuns).2 →
      watchOnlyVeto iwo store wallet_id account_id = false ∧
      eqcVerdict = Except.ok VerdictType.ALLOW ∧ shieldBlocked = false) ∧
    (watchOnlyVeto iwo store wallet_id account_id = false →
      eqcVerdict = Except.ok VerdictType.ALLOW → shieldBlocked = false →
      use_wsqk = false →
      executeSigningIntent iwo store wallet_id account_id eqcVerdict shieldBlocked
        shieldReason use_wsqk executorResult wsqkOutcome wsqkExecRuns =
        (Except.ok executorResult, 1)) := by
  refine ⟨?_, ?_, ?_, ?_, ?_⟩
  · intro hveto
    unfold executeSigningIntent
    rw [hveto]
    simp
  · intro hveto t ht hna
    unfold executeSigningIntent
    rw [hveto, ht]
    simp [hna]
  · intro hveto ht hsh
    unfold executeSigningIntent
    rw [hveto, ht, hsh]
    simp
  · intro hrun
    unfold executeSigningIntent at hrun
    by_cases hveto : watchOnlyVeto iwo store wallet_id account_id = true
    · rw [hveto] at hrun; simp at hrun
    · rw [Bool.not_eq_true] at hveto
      rw [hveto] at hrun
      simp only [Bool.false_eq_true, if_false] at hrun
      match heqc : eqcVerdict with
      | Except.error e =>
        simp at hrun
      | Except.ok t =>
        by_cases hta : t = VerdictType.ALLOW
        · subst hta
          by_cases hsh : shieldBlocked = true
          · simp [hsh] at hrun
          · rw [Bool.not_eq_true] at hsh
            exact ⟨hveto, rfl, hsh⟩
        · simp [hta] at hrun
  · intro hveto ht hsh hw
    unfold executeSigningIntent
    rw [hveto, ht, hsh, hw]
    simp

/-- Closed instance of the C2 theorem: a watch-only account blocks the
gate with a zero executor-run count even with use_wsqk false. -/
theorem signing_gate_short_circuits_witness :
    executeSigningIntent (some (fun _ _ => true)) none "w1" "a1"
      (Except.ok VerdictType.ALLOW) false "" false (0 : Nat)
      (Except.ok 0) 1 = (Except.error watchOnlyMsg, 0) :=
  (signing_gate_short_circuits (some (fun _ _ => true)) none "w1" "a1"
    (Except.ok VerdictType.ALLOW) false "" false 0 (Except.ok 0) 1).1 rfl

/-- Closed instance of the C8 theorem: a base ALLOW merged with a pack
STEP_UP that carries no payload yields a STEP_UP verdict carrying the
default confirm_user_intent requirement. -/
theorem merge_step_up_payload_witness :
    (mergeVerdicts
      (Verdict.allowV ::
        [{ type := VerdictType.STEP_UP,
           reasons := [safeReason "tighten" []], step_up := none }])).step_up =
      some ⟨["confirm_user_intent"], none⟩ :=
  (merge_step_up_payload Verdict.allowV
    [{ type := VerdictType.STEP_UP,
       reasons := [safeReason "tighten" []], step_up := none }]).1 rfl

end Adamantine
